import Mathlib

/-!
Shallow embedding of `src/filter/mod.c`, a thin C wrapper around FFmpeg's
libavfilter graph API.  The FFmpeg library itself is an external
collaborator: its functions (`av_frame_alloc`, `av_frame_clone`,
`av_dict_set`, `avfilter_init_dict`, `av_buffersrc_add_frame`,
`av_buffersink_get_frame`, `avfilter_graph_config`, the frees) are modelled
from their documented behaviour, with the data the wrapper cannot observe
(return codes of the backend, registry contents, allocation success)
supplied as explicit environment parameters.  Frames live in an explicit
heap of numbered cells so that aliasing and ownership questions are
expressible.
-/

set_option autoImplicit false

namespace Ffw

/-- Opaque media payload carried by a frame.  `0` stands for the empty
(reset / freshly allocated) frame content; the core never inspects it. -/
abbrev Content := Nat

/-- Explicit heap of `AVFrame` cells: `nextId` is the next fresh address,
`mem` maps allocated addresses to their content (first match wins, so an
update may simply be prepended). -/
structure Heap where
  nextId : Nat
  mem : List (Nat × Content)
  deriving Repr, DecidableEq

/-- First-match lookup in a heap's cell list. -/
def lookupC : List (Nat × Content) → Nat → Option Content
  | [], _ => none
  | e :: l, i => if e.1 = i then some e.2 else lookupC l i

/-- Read the content of a frame cell; `none` means the address is not
allocated (or has been freed). -/
def Heap.get (h : Heap) (i : Nat) : Option Content :=
  lookupC h.mem i

/-- Overwrite the content of frame cell `i` in place. -/
def Heap.set (h : Heap) (i : Nat) (c : Content) : Heap :=
  ⟨h.nextId, (i, c) :: h.mem⟩

/-- Allocate a fresh frame cell holding content `c`. -/
def Heap.alloc (h : Heap) (c : Content) : Nat × Heap :=
  (h.nextId, ⟨h.nextId + 1, (h.nextId, c) :: h.mem⟩)

/-- Release frame cell `i` (model of `av_frame_free`). -/
def Heap.free (h : Heap) (i : Nat) : Heap :=
  ⟨h.nextId, h.mem.filter (fun e => e.1 != i)⟩

/-- Model of `av_frame_alloc`: a fresh empty frame.  Allocation failure of
the backing struct is not modelled (the C caller would pass the NULL on to
the backend, which is outside this wrapper's defined behaviour). -/
def av_frame_alloc (h : Heap) : Nat × Heap :=
  h.alloc 0

/-- Model of `av_frame_clone`: a fresh frame whose content equals the
source frame's content (reference-counted payload; cheap copy). -/
def av_frame_clone (h : Heap) (src : Nat) : Nat × Heap :=
  h.alloc ((h.get src).getD 0)

/-- Staged option dictionary (`AVDictionary`): key/value pairs,
last-write-wins per key. -/
abbrev OptDict := List (String × String)

/-- Model of `av_dict_set` with flags 0: create the dictionary if the
in/out pointer holds NULL, replace any existing entry for `key`, return 0
(success).  Allocation failure is not modelled. -/
def av_dict_set (d : Option OptDict) (key value : String) : Int × Option OptDict :=
  (0, some ((d.getD []).filter (fun e => e.1 != key) ++ [(key, value)]))

/-- State of an `AVFilterContext` visible through this wrapper: how many
times `avfilter_init_dict` ran on it, which options were applied, the
buffersrc input queue, and whether end-of-stream was signalled. -/
structure AVFilterContext where
  initCount : Nat
  appliedOptions : OptDict
  queue : List Content
  eofSignalled : Bool
  deriving Repr, DecidableEq

/-- A freshly constructed filter context. -/
def AVFilterContext.fresh : AVFilterContext :=
  { initCount := 0, appliedOptions := [], queue := [], eofSignalled := false }

/-- The `Filter` struct of the C source: an `AVFilterContext*`, a staged
`AVDictionary* options` (NULL = `none`), and the lazily allocated
`AVFrame* sinkframe` slot (NULL = `none`). -/
structure Filter where
  context : AVFilterContext
  options : Option OptDict
  sinkframe : Option Nat
  deriving Repr, DecidableEq

/-- The `AVFilterGraph` backend as seen through this wrapper: it only
forwards `avfilter_graph_config` calls, so we record how often the backend
configuration pass ran. -/
structure AVFilterGraph where
  configCount : Nat
  deriving Repr, DecidableEq

/-- The `FilterGraph` struct of the C source: a single `AVFilterGraph*`
field and nothing else (in particular, no configured flag). -/
structure FilterGraph where
  graph : AVFilterGraph
  deriving Repr, DecidableEq

/-- Model of `ffw_filter_graph_init`: allocate the backend graph, then the
wrapper struct; either allocation failing yields NULL. -/
def ffw_filter_graph_init (graph_alloc_ok malloc_ok : Bool) : Option FilterGraph :=
  if graph_alloc_ok = false then none
  else if malloc_ok = false then none
  else some { graph := { configCount := 0 } }

/-- Model of `avfilter_graph_config`: the backend validation/negotiation
pass.  Its outcome depends on the actual graph topology, which the wrapper
never inspects, so the return code `envRet` is an environment input; each
invocation is counted. -/
def avfilter_graph_config (g : AVFilterGraph) (envRet : Int) : Int × AVFilterGraph :=
  (envRet, { g with configCount := g.configCount + 1 })

/-- `ffw_filter_graph_config`: returns `avfilter_graph_config(fg->graph, NULL)`
unconditionally — there is no configured flag and no already-configured
check. -/
def ffw_filter_graph_config (fg : FilterGraph) (envRet : Int) : Int × FilterGraph :=
  let r := avfilter_graph_config fg.graph envRet
  (r.1, { graph := r.2 })

/-- Environment for `ffw_filter_alloc`: the registry contents consulted by
`avfilter_get_by_name`, and whether the two allocations succeed. -/
structure AllocEnv where
  registry : List String
  graph_alloc_ok : Bool
  malloc_ok : Bool
  deriving Repr, DecidableEq

/-- Model of `avfilter_get_by_name`: registry lookup, NULL if absent. -/
def avfilter_get_by_name (registry : List String) (name : String) : Option String :=
  if registry.contains name then some name else none

/-- `ffw_filter_alloc`: look the kind up by name (NULL if unknown),
allocate the backend context (NULL on failure), `malloc` the wrapper
struct (NULL on failure); on success the new filter has no staged options
and a NULL sinkframe slot.  Every failure path returns NULL (`none`). -/
def ffw_filter_alloc (env : AllocEnv) (fg : FilterGraph) (name : String) : Option Filter :=
  match avfilter_get_by_name env.registry name with
  | none => none
  | some _ =>
    if env.graph_alloc_ok = false then none
    else if env.malloc_ok = false then none
    else some { context := AVFilterContext.fresh, options := none, sinkframe := none }

/-- Environment for `ffw_filter_init`: `avfilter_init_dict`'s return code
and whatever leftover (unconsumed) dictionary it stores back through its
in/out parameter. -/
structure InitEnv where
  ret : Int
  leftover : Option OptDict
  deriving Repr, DecidableEq

/-- Model of `avfilter_init_dict`: initializes the context with the staged
options (counted via `initCount`; applied options recorded); the return
code is chosen by the environment, and the in/out dictionary is replaced
by the leftover entries the backend did not consume. -/
def avfilter_init_dict (ctx : AVFilterContext) (opts : Option OptDict) (env : InitEnv) :
    Int × AVFilterContext × Option OptDict :=
  (env.ret,
   { ctx with
      initCount := ctx.initCount + 1
      appliedOptions := ctx.appliedOptions ++ opts.getD [] },
   env.leftover)

/-- `ffw_filter_init`: call `avfilter_init_dict(filter->context, &filter->options)`,
then `av_dict_free(&filter->options)` and `filter->options = NULL`, and
return the backend's code — so the staged set is discarded on every exit
path, success or failure. -/
def ffw_filter_init (f : Filter) (env : InitEnv) : Int × Filter :=
  let r := avfilter_init_dict f.context f.options env
  (r.1, { f with context := r.2.1, options := none })

/-- `ffw_filter_set_initial_option`: unconditionally
`av_dict_set(&filter->options, key, value, 0)` — no check whatsoever of
whether the filter was already initialized. -/
def ffw_filter_set_initial_option (f : Filter) (key value : String) : Int × Filter :=
  let r := av_dict_set f.options key value
  (r.1, { f with options := r.2 })

/-- Model of `av_buffersrc_add_frame`, from FFmpeg's documented contract:
unlike `av_buffersrc_write_frame` it takes ownership of the references
held by the frame and resets the frame (the content is moved into the
source's queue and the caller's frame is left empty); a NULL frame signals
end-of-stream.  The environment chooses the return code (`envRet < 0`
models queue rejection, in which case the input frame is not touched). -/
def av_buffersrc_add_frame (ctx : AVFilterContext) (h : Heap) (frame : Option Nat)
    (envRet : Int) : Int × AVFilterContext × Heap :=
  if envRet < 0 then (envRet, ctx, h)
  else
    match frame with
    | none => (envRet, { ctx with eofSignalled := true }, h)
    | some id =>
        (envRet,
         { ctx with queue := ctx.queue ++ [(h.get id).getD 0] },
         h.set id 0)

/-- `ffw_filter_push_frame`: a direct call to
`av_buffersrc_add_frame(buffersrc->context, frame)`. -/
def ffw_filter_push_frame (f : Filter) (h : Heap) (frame : Option Nat) (envRet : Int) :
    Int × Filter × Heap :=
  let r := av_buffersrc_add_frame f.context h frame envRet
  (r.1, { f with context := r.2.1 }, r.2.2)

/-- `AVERROR_EOF = FFERRTAG('E','O','F',' ')`, a negative constant. -/
def AVERROR_EOF : Int := -541478725

/-- `AVERROR(EAGAIN) = -EAGAIN`, with `EAGAIN = 11` on Linux. -/
def AVERROR_EAGAIN : Int := -11

/-- What the sink backend does on one `av_buffersink_get_frame` call: the
return code, and the content it writes into the slot when it succeeds. -/
structure SinkStep where
  ret : Int
  produced : Content
  deriving Repr, DecidableEq

/-- Model of `av_buffersink_get_frame`: on success (`ret ≥ 0`) the backend
fills the supplied frame in place with the produced content; on any error
the frame is untouched. -/
def av_buffersink_get_frame (h : Heap) (frameId : Nat) (env : SinkStep) : Int × Heap :=
  (env.ret, if 0 ≤ env.ret then h.set frameId env.produced else h)

/-- `ffw_filter_take_frame`: lazily allocate the `sinkframe` slot on first
use, call `av_buffersink_get_frame` into it, then classify the return
code: `AVERROR_EOF` or `AVERROR(EAGAIN)` collapse to 0 (not ready), any
other negative code is returned as-is (failure), and otherwise the slot is
cloned into the caller's out-parameter and 1 is returned.  The result is
`(return code, filter, heap, value of *frame on return)`; `framePtr` is
the value the caller had stored at `*frame` before the call. -/
def ffw_filter_take_frame (f : Filter) (h : Heap) (env : SinkStep) (framePtr : Option Nat) :
    Int × Filter × Heap × Option Nat :=
  let a :=
    match f.sinkframe with
    | none =>
        let al := av_frame_alloc h
        (al.1, { f with sinkframe := some al.1 }, al.2)
    | some id => (id, f, h)
  let slot := a.1
  let f1 := a.2.1
  let h1 := a.2.2
  let g := av_buffersink_get_frame h1 slot env
  let ret := g.1
  let h2 := g.2
  if ret = AVERROR_EOF ∨ ret = AVERROR_EAGAIN then
    (0, f1, h2, framePtr)
  else if ret < 0 then
    (ret, f1, h2, framePtr)
  else
    let cl := av_frame_clone h2 slot
    (1, f1, cl.2, some cl.1)

/-- Ledger of deallocations, used to state what the destructors release. -/
structure FreeState where
  graphsFreed : Nat
  contextsFreed : Nat
  dictsFreed : Nat
  framesFreed : Nat
  structsFreed : Nat
  deriving Repr, DecidableEq

/-- `ffw_filter_graph_free`: NULL-check then `avfilter_graph_free` and
`free(fg)`.  A NULL argument returns immediately with no effect. -/
def ffw_filter_graph_free (fg : Option FilterGraph) (s : FreeState) : FreeState :=
  match fg with
  | none => s
  | some _ =>
      { s with
          graphsFreed := s.graphsFreed + 1
          structsFreed := s.structsFreed + 1 }

/-- `ffw_filter_free`: NULL-check, then `avfilter_free(filter->context)`,
`av_dict_free(&filter->options)` if staged options remain,
`av_frame_free(&filter->sinkframe)` if the slot was ever allocated, and
`free(filter)`.  A NULL argument returns immediately with no effect. -/
def ffw_filter_free (f : Option Filter) (s : FreeState) : FreeState :=
  match f with
  | none => s
  | some f =>
      let s1 := { s with contextsFreed := s.contextsFreed + 1 }
      let s2 := if f.options.isSome then { s1 with dictsFreed := s1.dictsFreed + 1 } else s1
      let s3 := if f.sinkframe.isSome then { s2 with framesFreed := s2.framesFreed + 1 } else s2
      { s3 with structsFreed := s3.structsFreed + 1 }

/-- Run a sequence of `ffw_filter_take_frame` calls on one sink node, each
with its own backend step and prior out-parameter value, keeping the
filter and heap. -/
def runPulls (steps : List (SinkStep × Option Nat)) (fh : Filter × Heap) : Filter × Heap :=
  steps.foldl
    (fun fh s =>
      let r := ffw_filter_take_frame fh.1 fh.2 s.1 s.2
      (r.2.1, r.2.2.1))
    fh

/-- A filter as produced by a successful `ffw_filter_alloc`. -/
def freshFilter : Filter :=
  { context := AVFilterContext.fresh, options := none, sinkframe := none }

/-- An empty heap, for concrete evaluations. -/
def emptyHeap : Heap := { nextId := 0, mem := [] }

/-- A heap holding one frame (address 0, content 7), for concrete
evaluations. -/
def sampleHeap : Heap := { nextId := 1, mem := [(0, 7)] }

/-- A freshly initialized graph, for concrete evaluations. -/
def sampleGraph : FilterGraph := { graph := { configCount := 0 } }

/-- A zeroed deallocation ledger, for concrete evaluations. -/
def zeroFreeState : FreeState :=
  { graphsFreed := 0, contextsFreed := 0, dictsFreed := 0, framesFreed := 0, structsFreed := 0 }

theorem lookupC_cons_self (l : List (Nat × Content)) (i : Nat) (c : Content) :
    lookupC ((i, c) :: l) i = some c := by
  simp [lookupC]

theorem lookupC_cons_ne (l : List (Nat × Content)) (i j : Nat) (c : Content) (hne : j ≠ i) :
    lookupC ((i, c) :: l) j = lookupC l j := by
  have hij : ¬ (i = j) := fun hh => hne hh.symm
  simp [lookupC, hij]

theorem lookupC_filter_ne (l : List (Nat × Content)) (i j : Nat) (hne : j ≠ i) :
    lookupC (l.filter (fun e => e.1 != i)) j = lookupC l j := by
  induction l with
  | nil => rfl
  | cons a t ih =>
      by_cases hai : a.1 = i
      · have h1 : (a.1 != i) = false := by simp [hai]
        have haj : ¬ (a.1 = j) := fun hh => hne (hh.symm.trans hai)
        rw [List.filter_cons, h1]
        simp only [Bool.false_eq_true, if_false, ih]
        simp [lookupC, haj]
      · have h1 : (a.1 != i) = true := by simp [hai]
        rw [List.filter_cons, h1, if_pos rfl]
        by_cases haj : a.1 = j
        · simp [lookupC, haj]
        · simp [lookupC, haj, ih]

theorem Heap.get_set_self (h : Heap) (i : Nat) (c : Content) :
    (h.set i c).get i = some c := by
  simp [Heap.set, Heap.get, lookupC_cons_self]

theorem Heap.get_set_ne (h : Heap) (i j : Nat) (c : Content) (hne : j ≠ i) :
    (h.set i c).get j = h.get j := by
  simp [Heap.set, Heap.get, lookupC_cons_ne _ _ _ _ hne]

theorem Heap.get_free_ne (h : Heap) (i j : Nat) (hne : j ≠ i) :
    (h.free i).get j = h.get j := by
  simp [Heap.free, Heap.get, lookupC_filter_ne _ _ _ hne]

/-- C3: whatever the backend's verdict, `ffw_filter_init` leaves the
staged option set discarded: the `options` field is NULL on return on
every path. -/
theorem init_discards_options (f : Filter) (env : InitEnv) :
    ((ffw_filter_init f env).2).options = none := rfl

/-- C4 counterexample: initialize a fresh filter (backend succeeding),
then call `ffw_filter_set_initial_option`: the call returns 0 — success,
not an invalid-operation error — and mutates the staged set from NULL to
a one-entry dictionary, contradicting the claim that it fails and leaves
the staged set unmutated. -/
theorem set_option_after_init_cex :
    (ffw_filter_set_initial_option (ffw_filter_init freshFilter ⟨0, none⟩).2 "k" "v").1 = 0 ∧
    ((ffw_filter_init freshFilter ⟨0, none⟩).2).options = none ∧
    ((ffw_filter_set_initial_option (ffw_filter_init freshFilter ⟨0, none⟩).2 "k" "v").2).options
      = some [("k", "v")] := by
  refine ⟨rfl, rfl, rfl⟩

/-- C4 amended: `ffw_filter_set_initial_option` performs no
initialization check: called after `ffw_filter_init` it still succeeds
(returns 0), restages the pair into a fresh staged set, and leaves the
underlying instance unmutated. -/
theorem set_option_after_init (f : Filter) (env : InitEnv) (key value : String) :
    (ffw_filter_set_initial_option (ffw_filter_init f env).2 key value).1 = 0 ∧
    ((ffw_filter_set_initial_option (ffw_filter_init f env).2 key value).2).context
      = ((ffw_filter_init f env).2).context ∧
    ((ffw_filter_set_initial_option (ffw_filter_init f env).2 key value).2).options
      = some [(key, value)] := by
  refine ⟨rfl, rfl, rfl⟩

/-- C6 counterexample: configure the same graph twice with the backend
succeeding both times: the second call returns 0 — success, not an
already-configured error — and re-runs the backend configuration pass
(the invocation count reaches 2). -/
theorem graph_config_rerun_cex :
    (ffw_filter_graph_config (ffw_filter_graph_config sampleGraph 0).2 0).1 = 0 ∧
    ((ffw_filter_graph_config (ffw_filter_graph_config sampleGraph 0).2 0).2).graph.configCount
      = 2 := by
  refine ⟨rfl, rfl⟩

/-- C6 amended: `FilterGraph` carries no configured flag; every
`ffw_filter_graph_config` call, regardless of what happened before,
invokes the backend configuration pass once more and returns its code. -/
theorem graph_config_always_delegates (fg : FilterGraph) (envRet : Int) :
    (ffw_filter_graph_config fg envRet).1 = envRet ∧
    ((ffw_filter_graph_config fg envRet).2).graph.configCount
      = fg.graph.configCount + 1 := by
  refine ⟨rfl, rfl⟩

/-- C10: both destructors are NULL-safe no-ops: with a NULL argument each
returns immediately with the deallocation ledger untouched. -/
theorem free_null_noop (s : FreeState) :
    ffw_filter_graph_free none s = s ∧ ffw_filter_free none s = s :=
  ⟨rfl, rfl⟩

/-- C5 counterexample: push frame 0 (content 7) into a fresh source node
with the backend accepting: the call succeeds, yet the caller's frame is
reset to empty content rather than left unchanged — no internal clone is
taken, the content is moved. -/
theorem push_frame_resets_callers_frame_cex :
    (ffw_filter_push_frame freshFilter sampleHeap (some 0) 0).1 = 0 ∧
    sampleHeap.get 0 = some 7 ∧
    ((ffw_filter_push_frame freshFilter sampleHeap (some 0) 0).2.2).get 0 = some 0 := by
  refine ⟨rfl, rfl, rfl⟩

/-- C5 amended: a successful `ffw_filter_push_frame` of a non-null frame
moves the frame's content into the source node's queue
(`av_buffersrc_add_frame` takes ownership of the references and resets
the frame): on return the caller still owns the frame structure, but it
is reset to empty content, not left unchanged, and no clone of the
content stays with the caller. -/
theorem push_frame_moves_content (f : Filter) (h : Heap) (id : Nat) (c : Content)
    (envRet : Int) (hok : 0 ≤ envRet) (hc : h.get id = some c) :
    (ffw_filter_push_frame f h (some id) envRet).1 = envRet ∧
    ((ffw_filter_push_frame f h (some id) envRet).2.1).context.queue
      = f.context.queue ++ [c] ∧
    ((ffw_filter_push_frame f h (some id) envRet).2.2).get id = some 0 := by
  have hlt : ¬ envRet < 0 := not_lt.mpr hok
  refine ⟨?_, ?_, ?_⟩ <;>
    simp [ffw_filter_push_frame, av_buffersrc_add_frame, hlt, hc, Heap.get_set_self]

/-- Witness for the amended C5 at a concrete input. -/
theorem push_frame_moves_content_witness :
    (ffw_filter_push_frame freshFilter sampleHeap (some 0) 0).1 = 0 ∧
    ((ffw_filter_push_frame freshFilter sampleHeap (some 0) 0).2.1).context.queue
      = freshFilter.context.queue ++ [7] ∧
    ((ffw_filter_push_frame freshFilter sampleHeap (some 0) 0).2.2).get 0 = some 0 :=
  push_frame_moves_content freshFilter sampleHeap 0 7 0 (by decide) rfl

/-- C7 counterexample: the unknown-kind failure and the malloc failure of
`ffw_filter_alloc` produce the very same result (NULL), so the caller
cannot tell them apart. -/
theorem alloc_failures_indistinguishable_cex :
    ffw_filter_alloc ⟨["anull"], true, true⟩ sampleGraph "nonexistent" = none ∧
    ffw_filter_alloc ⟨["anull"], true, false⟩ sampleGraph "anull" = none ∧
    ffw_filter_alloc ⟨["anull"], true, true⟩ sampleGraph "nonexistent"
      = ffw_filter_alloc ⟨["anull"], true, false⟩ sampleGraph "anull" := by
  refine ⟨by decide, by decide, by decide⟩

/-- C7 amended: an absent kind name makes `ffw_filter_alloc` fail by
returning NULL, and resource exhaustion during node construction makes it
fail by returning NULL as well — the identical value, so the two failures
are not distinguishable by the caller. -/
theorem alloc_unknown_kind_or_exhaustion_null (env env2 : AllocEnv) (fg fg2 : FilterGraph)
    (name name2 : String) (hname : env.registry.contains name = false)
    (hmalloc : env2.malloc_ok = false) :
    ffw_filter_alloc env fg name = none ∧
    ffw_filter_alloc env2 fg2 name2 = none ∧
    ffw_filter_alloc env fg name = ffw_filter_alloc env2 fg2 name2 := by
  have h1 : ffw_filter_alloc env fg name = none := by
    unfold ffw_filter_alloc avfilter_get_by_name
    rw [hname]
    simp
  have h2 : ffw_filter_alloc env2 fg2 name2 = none := by
    unfold ffw_filter_alloc
    cases avfilter_get_by_name env2.registry name2 with
    | none => rfl
    | some v =>
        by_cases hga : env2.graph_alloc_ok = false <;> simp [hga, hmalloc]
  exact ⟨h1, h2, h1.trans h2.symm⟩

/-- Witness for the amended C7 at concrete inputs. -/
theorem alloc_unknown_kind_or_exhaustion_null_witness :
    ffw_filter_alloc ⟨["anull"], true, true⟩ sampleGraph "nonexistent" = none ∧
    ffw_filter_alloc ⟨["anull"], true, false⟩ sampleGraph "anull" = none ∧
    ffw_filter_alloc ⟨["anull"], true, true⟩ sampleGraph "nonexistent"
      = ffw_filter_alloc ⟨["anull"], true, false⟩ sampleGraph "anull" :=
  alloc_unknown_kind_or_exhaustion_null ⟨["anull"], true, true⟩ ⟨["anull"], true, false⟩
    sampleGraph sampleGraph "nonexistent" "anull" (by decide) rfl

/-- The return code of `ffw_filter_take_frame` as a function of the
backend's code: EOF/EAGAIN collapse to 0, other negatives pass through,
nonnegative yields 1. -/
theorem take_frame_ret (f : Filter) (h : Heap) (env : SinkStep) (fp : Option Nat) :
    (ffw_filter_take_frame f h env fp).1 =
      if env.ret = AVERROR_EOF ∨ env.ret = AVERROR_EAGAIN then 0
      else if env.ret < 0 then env.ret else 1 := by
  by_cases hc1 : env.ret = AVERROR_EOF ∨ env.ret = AVERROR_EAGAIN
  · cases hsf : f.sinkframe <;>
      simp [ffw_filter_take_frame, av_buffersink_get_frame, hsf, hc1]
  · by_cases hc2 : env.ret < 0
    · cases hsf : f.sinkframe <;>
        simp [ffw_filter_take_frame, av_buffersink_get_frame, hsf, hc1, hc2]
    · cases hsf : f.sinkframe <;>
        simp [ffw_filter_take_frame, av_buffersink_get_frame, hsf, hc1, hc2]

/-- C1: `ffw_filter_take_frame` classifies the backend's verdict exactly
three ways: EOF and EAGAIN both collapse to the not-ready return 0; any
other negative code is returned verbatim as the failure, never mapped to
0; a nonnegative code yields return 1 with a frame stored in the caller's
out-parameter. -/
theorem take_frame_tri_state (f : Filter) (h : Heap) (env : SinkStep) (fp : Option Nat) :
    ((env.ret = AVERROR_EOF ∨ env.ret = AVERROR_EAGAIN) →
        (ffw_filter_take_frame f h env fp).1 = 0) ∧
    (env.ret < 0 → env.ret ≠ AVERROR_EOF → env.ret ≠ AVERROR_EAGAIN →
        (ffw_filter_take_frame f h env fp).1 = env.ret) ∧
    (0 ≤ env.ret →
        (ffw_filter_take_frame f h env fp).1 = 1 ∧
        ((ffw_filter_take_frame f h env fp).2.2.2).isSome = true) := by
  refine ⟨?_, ?_, ?_⟩
  · intro hc
    rw [take_frame_ret, if_pos hc]
  · intro h1 h2 h3
    rw [take_frame_ret, if_neg (by tauto), if_pos h1]
  · intro h0
    have hne1 : env.ret ≠ AVERROR_EOF := by
      intro hh; rw [hh] at h0; exact absurd h0 (by decide)
    have hne2 : env.ret ≠ AVERROR_EAGAIN := by
      intro hh; rw [hh] at h0; exact absurd h0 (by decide)
    have hnlt : ¬ env.ret < 0 := not_lt.mpr h0
    constructor
    · rw [take_frame_ret, if_neg (by tauto), if_neg hnlt]
    · cases hsf : f.sinkframe <;>
        simp [ffw_filter_take_frame, av_buffersink_get_frame, hsf, hne1, hne2, hnlt]

/-- Witness for C1 at concrete inputs: EOF gives 0, −22 passes through,
and a successful backend read gives 1. -/
theorem take_frame_tri_state_witness :
    (ffw_filter_take_frame freshFilter emptyHeap ⟨AVERROR_EOF, 5⟩ none).1 = 0 ∧
    (ffw_filter_take_frame freshFilter emptyHeap ⟨-22, 5⟩ none).1 = -22 ∧
    (ffw_filter_take_frame freshFilter emptyHeap ⟨0, 5⟩ none).1 = 1 :=
  ⟨(take_frame_tri_state freshFilter emptyHeap ⟨AVERROR_EOF, 5⟩ none).1 (Or.inl rfl),
   (take_frame_tri_state freshFilter emptyHeap ⟨-22, 5⟩ none).2.1
     (by decide) (by decide) (by decide),
   ((take_frame_tri_state freshFilter emptyHeap ⟨0, 5⟩ none).2.2 (by decide)).1⟩

/-- C9: whenever `ffw_filter_take_frame` does not return 1 (not-ready or
failure), the caller's out-parameter is returned exactly as it was before
the call: it is written only on the produced path. -/
theorem take_frame_non_produced_out_untouched (f : Filter) (h : Heap) (env : SinkStep)
    (fp : Option Nat) (hne : (ffw_filter_take_frame f h env fp).1 ≠ 1) :
    (ffw_filter_take_frame f h env fp).2.2.2 = fp := by
  by_cases hc1 : env.ret = AVERROR_EOF ∨ env.ret = AVERROR_EAGAIN
  · cases hsf : f.sinkframe <;>
      simp [ffw_filter_take_frame, av_buffersink_get_frame, hsf, hc1]
  · by_cases hc2 : env.ret < 0
    · cases hsf : f.sinkframe <;>
        simp [ffw_filter_take_frame, av_buffersink_get_frame, hsf, hc1, hc2]
    · exfalso
      exact hne (by rw [take_frame_ret, if_neg hc1, if_neg hc2])

/-- Witness for C9 at a concrete input: backend says EAGAIN, the stale
out-parameter value survives. -/
theorem take_frame_non_produced_out_untouched_witness :
    (ffw_filter_take_frame freshFilter emptyHeap ⟨AVERROR_EAGAIN, 5⟩ (some 42)).2.2.2
      = some 42 :=
  take_frame_non_produced_out_untouched freshFilter emptyHeap ⟨AVERROR_EAGAIN, 5⟩ (some 42)
    (by decide)

/-- Full description of a produced pull: the slot (lazily allocated at the
heap's next address on first use) is filled in place with the produced
content and then cloned into a fresh cell handed to the caller. -/
theorem take_frame_produced_eq (f : Filter) (h : Heap) (env : SinkStep) (fp : Option Nat)
    (h0 : 0 ≤ env.ret) :
    ffw_filter_take_frame f h env fp =
      match f.sinkframe with
      | none =>
          (1, { f with sinkframe := some h.nextId },
           ⟨h.nextId + 2,
            (h.nextId + 1, env.produced) :: (h.nextId, env.produced)
              :: (h.nextId, 0) :: h.mem⟩,
           some (h.nextId + 1))
      | some id =>
          (1, f,
           ⟨h.nextId + 1, (h.nextId, env.produced) :: (id, env.produced) :: h.mem⟩,
           some h.nextId) := by
  have hne1 : env.ret ≠ AVERROR_EOF := by
    intro hh; rw [hh] at h0; exact absurd h0 (by decide)
  have hne2 : env.ret ≠ AVERROR_EAGAIN := by
    intro hh; rw [hh] at h0; exact absurd h0 (by decide)
  have hnlt : ¬ env.ret < 0 := not_lt.mpr h0
  cases hsf : f.sinkframe with
  | none =>
      simp [ffw_filter_take_frame, av_buffersink_get_frame, av_frame_alloc, av_frame_clone,
        Heap.alloc, Heap.set, Heap.get, lookupC, hsf, hne1, hne2, hnlt, h0]
  | some id =>
      simp [ffw_filter_take_frame, av_buffersink_get_frame, av_frame_alloc, av_frame_clone,
        Heap.alloc, Heap.set, Heap.get, lookupC, hsf, hne1, hne2, hnlt, h0]

/-- C2: on a produced pull the caller receives a clone: a frame cell
distinct from the node's `sinkframe` slot, holding the same content; the
node keeps its slot, and neither overwriting nor freeing the returned
frame changes what the slot holds. -/
theorem take_frame_clone_no_alias (f : Filter) (h : Heap) (env : SinkStep) (fp : Option Nat)
    (hwf : ∀ id, f.sinkframe = some id → id < h.nextId) (hret : 0 ≤ env.ret) :
    ∃ cid slot,
      (ffw_filter_take_frame f h env fp).2.2.2 = some cid ∧
      ((ffw_filter_take_frame f h env fp).2.1).sinkframe = some slot ∧
      cid ≠ slot ∧
      ((ffw_filter_take_frame f h env fp).2.2.1).get cid = some env.produced ∧
      ((ffw_filter_take_frame f h env fp).2.2.1).get slot = some env.produced ∧
      (∀ c, (((ffw_filter_take_frame f h env fp).2.2.1).set cid c).get slot
              = some env.produced) ∧
      ((((ffw_filter_take_frame f h env fp).2.2.1).free cid).get slot
              = some env.produced) := by
  cases hsf : f.sinkframe with
  | none =>
      have hne : h.nextId + 1 ≠ h.nextId := by omega
      have hne' : h.nextId ≠ h.nextId + 1 := by omega
      simp only [take_frame_produced_eq f h env fp hret, hsf]
      have hget : (⟨h.nextId + 2,
          (h.nextId + 1, env.produced) :: (h.nextId, env.produced)
            :: (h.nextId, 0) :: h.mem⟩ : Heap).get h.nextId = some env.produced := by
        simp [Heap.get, lookupC, hne]
      refine ⟨h.nextId + 1, h.nextId, rfl, rfl, hne, ?_, hget, ?_, ?_⟩
      · simp [Heap.get, lookupC]
      · intro c
        rw [Heap.get_set_ne _ _ _ _ hne']
        exact hget
      · rw [Heap.get_free_ne _ _ _ hne']
        exact hget
  | some id =>
      have hid : id < h.nextId := hwf id hsf
      have hne : h.nextId ≠ id := by omega
      have hne' : id ≠ h.nextId := by omega
      simp only [take_frame_produced_eq f h env fp hret, hsf]
      have hget : (⟨h.nextId + 1,
          (h.nextId, env.produced) :: (id, env.produced) :: h.mem⟩ : Heap).get id
            = some env.produced := by
        simp [Heap.get, lookupC, hne]
      refine ⟨h.nextId, id, rfl, rfl, hne, ?_, hget, ?_, ?_⟩
      · simp [Heap.get, lookupC]
      · intro c
        rw [Heap.get_set_ne _ _ _ _ hne']
        exact hget
      · rw [Heap.get_free_ne _ _ _ hne']
        exact hget

/-- Witness for C2 at a concrete input: pulling from a fresh sink whose
backend produces content 7 returns a clone at cell 1, distinct from the
slot at cell 0, both holding 7, and mutating or freeing the clone leaves
the slot holding 7. -/
theorem take_frame_clone_no_alias_witness :
    ∃ cid slot,
      (ffw_filter_take_frame freshFilter emptyHeap ⟨0, 7⟩ none).2.2.2 = some cid ∧
      ((ffw_filter_take_frame freshFilter emptyHeap ⟨0, 7⟩ none).2.1).sinkframe
        = some slot ∧
      cid ≠ slot ∧
      ((ffw_filter_take_frame freshFilter emptyHeap ⟨0, 7⟩ none).2.2.1).get cid = some 7 ∧
      ((ffw_filter_take_frame freshFilter emptyHeap ⟨0, 7⟩ none).2.2.1).get slot = some 7 ∧
      (∀ c, (((ffw_filter_take_frame freshFilter emptyHeap ⟨0, 7⟩ none).2.2.1).set cid c).get
              slot = some 7) ∧
      ((((ffw_filter_take_frame freshFilter emptyHeap ⟨0, 7⟩ none).2.2.1).free cid).get slot
              = some 7) :=
  take_frame_clone_no_alias freshFilter emptyHeap ⟨0, 7⟩ none
    (fun id hid => by simp [freshFilter] at hid) (by decide)

/-- C8: the sink slot lifecycle: a node fresh out of `ffw_filter_alloc`
has a NULL slot; the first pull allocates the slot (at the heap's next
fresh address); once the slot exists, any further sequence of pulls keeps
that very cell (it is never reallocated); and `ffw_filter_free` releases
exactly one frame when the slot was allocated and none when it never
was. -/
theorem sinkframe_slot_lifecycle :
    (∀ env fg name f, ffw_filter_alloc env fg name = some f → f.sinkframe = none) ∧
    (∀ f h e fp, f.sinkframe = none →
        ((ffw_filter_take_frame f h e fp).2.1).sinkframe = some h.nextId) ∧
    (∀ steps f h id, f.sinkframe = some id →
        ((runPulls steps (f, h)).1).sinkframe = some id) ∧
    (∀ f s, f.sinkframe.isSome = true →
        (ffw_filter_free (some f) s).framesFreed = s.framesFreed + 1) ∧
    (∀ f s, f.sinkframe = none →
        (ffw_filter_free (some f) s).framesFreed = s.framesFreed) := by
  refine ⟨?_, ?_, ?_, ?_, ?_⟩
  · intro env fg name f hf
    unfold ffw_filter_alloc at hf
    cases hav : avfilter_get_by_name env.registry name with
    | none => rw [hav] at hf; cases hf
    | some v =>
        rw [hav] at hf
        by_cases hga : env.graph_alloc_ok = false
        · simp [hga] at hf
        · by_cases hm : env.malloc_ok = false
          · simp [hga, hm] at hf
          · simp [hga, hm] at hf
            rw [← hf]
  · intro f h e fp hsf
    simp only [ffw_filter_take_frame, av_buffersink_get_frame, av_frame_alloc, Heap.alloc,
      hsf]
    split
    · rfl
    · split <;> rfl
  · intro steps
    induction steps with
    | nil =>
        intro f h id hsf
        simpa [runPulls] using hsf
    | cons s rest ih =>
        intro f h id hsf
        have hstep : ((ffw_filter_take_frame f h s.1 s.2).2.1).sinkframe = some id := by
          simp only [ffw_filter_take_frame, av_buffersink_get_frame, hsf]
          split
          · exact hsf
          · split <;> exact hsf
        have hrun : runPulls (s :: rest) (f, h)
            = runPulls rest ((ffw_filter_take_frame f h s.1 s.2).2.1,
                             (ffw_filter_take_frame f h s.1 s.2).2.2.1) := rfl
        rw [hrun]
        exact ih _ _ _ hstep
  · intro f s hsf
    by_cases ho : f.options.isSome <;> simp [ffw_filter_free, hsf, ho]
  · intro f s hsf
    by_cases ho : f.options.isSome <;> simp [ffw_filter_free, hsf, ho]

/-- Witness for C8 at concrete inputs: a freshly allocated node has a
NULL slot, the first pull installs cell 0, a further pull keeps cell 0,
and freeing releases one frame exactly when the slot exists. -/
theorem sinkframe_slot_lifecycle_witness :
    freshFilter.sinkframe = none ∧
    ((ffw_filter_take_frame freshFilter emptyHeap ⟨0, 7⟩ none).2.1).sinkframe = some 0 ∧
    ((runPulls [(⟨0, 8⟩, none)]
        ({ freshFilter with sinkframe := some 0 }, emptyHeap)).1).sinkframe = some 0 ∧
    (ffw_filter_free (some { freshFilter with sinkframe := some 0 })
        zeroFreeState).framesFreed = zeroFreeState.framesFreed + 1 ∧
    (ffw_filter_free (some freshFilter) zeroFreeState).framesFreed
      = zeroFreeState.framesFreed :=
  ⟨sinkframe_slot_lifecycle.1 ⟨["anull"], true, true⟩ sampleGraph "anull" freshFilter
      (by decide),
   sinkframe_slot_lifecycle.2.1 freshFilter emptyHeap ⟨0, 7⟩ none rfl,
   sinkframe_slot_lifecycle.2.2.1 [(⟨0, 8⟩, none)]
      { freshFilter with sinkframe := some 0 } emptyHeap 0 rfl,
   sinkframe_slot_lifecycle.2.2.2.1 { freshFilter with sinkframe := some 0 }
      zeroFreeState rfl,
   sinkframe_slot_lifecycle.2.2.2.2 freshFilter zeroFreeState rfl⟩

end Ffw
